import Mathlib

/-
Shallow embedding of the QuickJS console-REPL plugin (src/src/plugin.cpp).

The plugin embeds QuickJS in a game console.  Its state is a handful of
process-global variables: a map of lazily created globals (global_vars),
the engine handles (runtime, context), the accumulated input buffer, the
pending-blank-line marker, and the running flag.  The operations modelled
here, each named after its C++ counterpart:

  * js_lookup_global        - the C function exposed to JS (lines 28-80)
  * initialize_js_environment (lines 153-200), with the engine allocation
    outcomes (runtime / context / global-object) injected as booleans,
    since QuickJS itself is an external library
  * cleanup_js_environment  - lines 203-217
  * execute_js_code         - lines 220-266; the outcome of the single
    JS_Eval call on the wrapped code is injected as a parameter
  * onJavaScriptREPLText    - lines 276-319
  * onStartJavaScriptREPL   - lines 321-346
  * run_wrapped_eval        - the semantics of the JavaScript wrapper
    template built inside execute_js_code (lines 225-242): the outcomes of
    the two possible inner eval calls are injected, the catch-clause logic
    (ReferenceError test, varName extraction, lazy binding, single retry)
    is translated from the wrapper source

Engine values are modelled by JSVal; allocated strings carry an allocation
id drawn from a counter so that engine identity (same handle vs freshly
created value) is observable.  JS_DupValue only bumps a reference count in
QuickJS, so it is the identity on handles here.  Console/log output and
eval submissions are recorded as explicit events.
-/

/-- Engine value handles. Allocated strings carry an allocation id so that
identity of handles is observable; JS_UNDEFINED is the unique undefined
value; native models host function/object handles installed at setup. -/
inductive JSVal where
  | undef : JSVal
  | strVal : String → Nat → JSVal
  | native : String → JSVal
deriving DecidableEq

/-- JS_DupValue only increments a reference count: the handle returned is
the very same value. -/
def JS_DupValue (v : JSVal) : JSVal := v

/-- JS_IsUndefined test (plugin.cpp line 252). -/
def JS_IsUndefined (v : JSVal) : Bool :=
  match v with
  | JSVal.undef => true
  | _ => false

/-- JS_ToCString on a result value (plugin.cpp line 254); total on the
modelled value forms. -/
def js_to_cstring (v : JSVal) : Option String :=
  match v with
  | JSVal.undef => some "undefined"
  | JSVal.strVal s _ => some s
  | JSVal.native n => some n

/-- A JavaScript exception as seen by the wrapper code: whether it is a
ReferenceError instance, and its message string. -/
structure JsError where
  isReferenceError : Bool
  message : String
deriving DecidableEq

/-- Outcome of one engine eval call: a value, or a thrown exception. -/
inductive EvalOut where
  | ok : JSVal → EvalOut
  | thrown : JsError → EvalOut
deriving DecidableEq

/-- The input actually received by the C bridge function js_lookup_global:
no argument (argc < 1), a non-string first argument, a string argument
whose JS_ToCStringLen extraction fails (returns null), or a successfully
extracted name. -/
inductive BridgeArg where
  | noArg : BridgeArg
  | nonString : JSVal → BridgeArg
  | strExtractFail : BridgeArg
  | str : String → BridgeArg
deriving DecidableEq

/-- Result of the bridge C function: a returned value, or the QuickJS
exception marker (the source never produces the latter). -/
inductive BridgeResult where
  | value : JSVal → BridgeResult
  | exceptionMarker : BridgeResult
deriving DecidableEq

/-- Association-list update with overwrite, modelling unordered_map
insertion (operator square-brackets assignment). -/
def setVar : List (String × JSVal) → String → JSVal → List (String × JSVal)
  | [], k, v => [(k, v)]
  | (k', v') :: rest, k, v =>
      if k' = k then (k, v) :: rest else (k', v') :: setVar rest k v

/-- Association-list lookup, modelling unordered_map find. -/
def findVar : List (String × JSVal) → String → Option JSVal
  | [], _ => none
  | (k', v') :: rest, k => if k' = k then some v' else findVar rest k

/-- The engine-visible state touched by the bridge: the process-global
global_vars map (plugin.cpp line 15), the properties of the engine's
global object, and the allocation counter for fresh value handles. -/
structure JSEnv where
  global_vars : List (String × JSVal)
  global_obj : List (String × JSVal)
  nextId : Nat
deriving DecidableEq

/-- The C function exposed to JS (plugin.cpp lines 28-80).  Checks the
argument, consults global_vars, and on a miss lazily creates the binding:
the reserved name MyString gets a fresh engine string with the fixed text,
every other name gets JS_UNDEFINED; the new binding is stored both in
global_vars and as a property of the global object, and returned. -/
def js_lookup_global (arg : BridgeArg) (env : JSEnv) : BridgeResult × JSEnv :=
  match arg with
  | BridgeArg.noArg => (BridgeResult.value JSVal.undef, env)
  | BridgeArg.nonString _ => (BridgeResult.value JSVal.undef, env)
  | BridgeArg.strExtractFail => (BridgeResult.value JSVal.undef, env)
  | BridgeArg.str prop_name =>
    match findVar env.global_vars prop_name with
    | some stored => (BridgeResult.value (JS_DupValue stored), env)
    | none =>
      if prop_name = "MyString" then
        let new_global := JSVal.strVal "I am a string!" env.nextId
        (BridgeResult.value new_global,
          { global_vars := setVar env.global_vars prop_name (JS_DupValue new_global),
            global_obj := setVar env.global_obj prop_name (JS_DupValue new_global),
            nextId := env.nextId + 1 })
      else
        let new_global := JSVal.undef
        (BridgeResult.value new_global,
          { global_vars := setVar env.global_vars prop_name (JS_DupValue new_global),
            global_obj := setVar env.global_obj prop_name (JS_DupValue new_global),
            nextId := env.nextId })

/-- Does the first character list start with the second. -/
def charsStartWith : List Char → List Char → Bool
  | _, [] => true
  | [], _ :: _ => false
  | a :: as, b :: bs => a = b && charsStartWith as bs

/-- Does the first character list contain the second as a contiguous run. -/
def charsInclude : List Char → List Char → Bool
  | hay, pat =>
    match hay with
    | [] => charsStartWith [] pat
    | _ :: rest => charsStartWith hay pat || charsInclude rest pat

/-- The JavaScript expression e.message.includes(pattern) used by the
wrapper's catch clause. -/
def js_string_includes (s pat : String) : Bool := charsInclude s.data pat.data

/-- Characters of a message up to the first space. -/
def takeUntilSpace : List Char → List Char
  | [] => []
  | c :: rest => if c = ' ' then [] else c :: takeUntilSpace rest

/-- The JavaScript expression taking element 0 of message.split(space),
used by the wrapper to extract varName from a message of the shape
"Foo is not defined". -/
def first_space_token (m : String) : String := String.mk (takeUntilSpace m.data)

/-- The wrapper's catch-clause test (plugin.cpp line 232): the exception is
a ReferenceError whose message includes the fixed text. -/
def is_not_defined_reference_error (e : JsError) : Bool :=
  e.isReferenceError && js_string_includes e.message "is not defined"

/-- Value carried by a bridge result; the bridge never produces the
exception marker, so that branch is dead. -/
def bridge_value (r : BridgeResult) : JSVal :=
  match r with
  | BridgeResult.value v => v
  | BridgeResult.exceptionMarker => JSVal.undef

/-- Semantics of the self-invoking wrapper built in execute_js_code
(plugin.cpp lines 225-242).  The engine's two possible inner eval calls on
the user text are external, so their outcomes r1 (first try) and r2
(retry) are parameters.  Translated from the wrapper source: on a first
outcome that is a ReferenceError whose message includes the fixed text,
extract varName (element 0 of the space-split message), assign the bridge
lookup of varName to that property of globalThis, and eval again, whose
outcome is returned as is; any other exception is re-thrown; a successful
first eval returns its value.  The Nat counts how many eval calls ran. -/
def run_wrapped_eval (r1 r2 : EvalOut) (env : JSEnv) : EvalOut × JSEnv × Nat :=
  match r1 with
  | EvalOut.ok v => (EvalOut.ok v, env, 1)
  | EvalOut.thrown e =>
    if is_not_defined_reference_error e then
      let varName := first_space_token e.message
      let r := js_lookup_global (BridgeArg.str varName) env
      let env1 := { r.2 with global_obj := setVar r.2.global_obj varName (bridge_value r.1) }
      (r2, env1, 2)
    else (EvalOut.thrown e, env, 1)

/-- The per-session engine context contents visible to this model: the
global object's properties and the allocation counter. -/
structure CtxState where
  global_obj : List (String × JSVal)
  nextId : Nat
deriving DecidableEq

/-- The plugin's process-global state (plugin.cpp lines 15, 146-150, 268):
global_vars, the runtime handle (non-null or null), the context handle,
the input buffer, the pending-blank-line marker, the running flag, and
counters of claim_ownership / release_ownership calls made on the console
manager service. -/
structure PluginState where
  global_vars : List (String × JSVal)
  runtime : Bool
  context : Option CtxState
  input_buffer : String
  empty_line_detected : Bool
  isJavaScriptREPLRunning : Bool
  claims : Nat
  releases : Nat
deriving DecidableEq

def START_REPL_COMMAND : String := "js"

def END_REPL_COMMAND : String := "end"

def QUIT_GAME_COMMAND : String := "qqq"

/-- The C isspace classification used on each character of a line
(plugin.cpp lines 297-300). -/
def is_c_space (c : Char) : Bool :=
  c = ' ' || c = '\t' || c = '\n' || c = '\x0b' || c = '\x0c' || c = '\r'

/-- Blank-line test from the handler: empty, the single carriage return,
or all characters whitespace. -/
def isBlankLine (l : String) : Bool :=
  l = "" || l = "\r" || l.data.all is_c_space

/-- Buffer append from the handler (plugin.cpp lines 310-311): a newline
separator is inserted only when the buffer is already non-empty. -/
def appendLine (b l : String) : String :=
  if b = "" then l else b ++ "\n" ++ l

/-- Observable outputs of the line handler: console prints, log-only error
dumps (js_dump_error), and each text actually passed to evaluation. -/
inductive REPLEvent where
  | consolePrint : String → REPLEvent
  | logError : String → REPLEvent
  | submission : String → REPLEvent
deriving DecidableEq

/-- The texts submitted for evaluation among a list of events. -/
def submittedTexts (evs : List REPLEvent) : List String :=
  evs.filterMap (fun e =>
    match e with
    | REPLEvent.submission c => some c
    | _ => none)

/-- setup_js_env plus the console-object installation performed on a
freshly created context (plugin.cpp lines 107-144 and 192-194): the
bridge function and the console object become properties of the global
object. -/
def freshContext : CtxState :=
  { global_obj :=
      setVar (setVar [] "__lookup_global_from_cpp"
          (JSVal.native "__lookup_global_from_cpp"))
        "console" (JSVal.native "console"),
    nextId := 0 }

/-- initialize_js_environment (plugin.cpp lines 153-200).  The three
QuickJS allocation outcomes are injected: rOk for JS_NewRuntime, cOk for
JS_NewContext, gOk for JS_GetGlobalObject.  A runtime-allocation failure
returns with the runtime handle null; a context-allocation failure frees
the runtime and nulls it; a global-object failure frees both.  On success
the fresh context gets the bridge function and the console object
installed on its global object. -/
def initialize_js_environment (rOk cOk gOk : Bool) (s : PluginState) : PluginState :=
  if rOk = false then
    { s with runtime := false }
  else
    let s1 := { s with runtime := true }
    if cOk = false then
      { s1 with runtime := false }
    else
      if gOk = false then
        { s1 with context := none, runtime := false }
      else
        { s1 with context := some freshContext }

/-- cleanup_js_environment (plugin.cpp lines 203-217): free the context,
then the runtime, null both, clear the buffer and the marker.  Note that
global_vars is NOT touched by the source. -/
def cleanup_js_environment (s : PluginState) : PluginState :=
  { s with context := none, runtime := false,
           input_buffer := "", empty_line_detected := false }

/-- Events produced after the JS_Eval call in execute_js_code (plugin.cpp
lines 250-259): on an exception, js_dump_error writes the message to the
log; on a value other than undefined, the rendered result is printed
prefixed, and a failed rendering prints nothing. -/
def outcome_events (outcome : EvalOut) : List REPLEvent :=
  match outcome with
  | EvalOut.thrown e => [REPLEvent.logError e.message]
  | EvalOut.ok v =>
    if JS_IsUndefined v then []
    else
      match js_to_cstring v with
      | some str => [REPLEvent.consolePrint ("=> " ++ str)]
      | none => []

/-- execute_js_code (plugin.cpp lines 220-266).  Returns immediately when
the context is null or the buffer is empty.  Otherwise prints the banner,
submits the buffered text (spliced into the wrapper) to JS_Eval - whose
outcome is the injected parameter - emits the outcome events, and finally
clears the buffer. -/
def execute_js_code (outcome : EvalOut) (s : PluginState) : PluginState × List REPLEvent :=
  if s.context.isNone || s.input_buffer = "" then (s, [])
  else
    ({ s with input_buffer := "" },
     [REPLEvent.consolePrint "Executing JavaScript code:",
      REPLEvent.submission s.input_buffer] ++ outcome_events outcome)

/-- onJavaScriptREPLText (plugin.cpp lines 276-319).  While running: the
quit sentinel is passed through unhandled; the end sentinel tears the
environment down, stops the REPL and releases console ownership; a blank
line either triggers execution (second consecutive blank) or sets the
pending marker; any other line is appended to the buffer and resets the
marker.  While not running every line is unhandled.  Returns the handled
flag, the new state and the emitted events. -/
def onJavaScriptREPLText (outcome : EvalOut) (commandText : String) (s : PluginState) :
    Bool × PluginState × List REPLEvent :=
  if s.isJavaScriptREPLRunning then
    let current_line := commandText
    if current_line = QUIT_GAME_COMMAND then (false, s, [])
    else if current_line = END_REPL_COMMAND then
      let s1 := cleanup_js_environment s
      (true,
       { s1 with isJavaScriptREPLRunning := false, releases := s1.releases + 1 },
       [REPLEvent.consolePrint "Ending JavaScript REPL..."])
    else if isBlankLine current_line then
      if s.empty_line_detected then
        let r := execute_js_code outcome s
        (true, { r.1 with empty_line_detected := false }, r.2)
      else
        (true, { s with empty_line_detected := true }, [])
    else
      (true,
       { s with input_buffer := appendLine s.input_buffer current_line,
                empty_line_detected := false },
       [])
  else (false, s, [])

/-- onStartJavaScriptREPL (plugin.cpp lines 321-346).  When not running:
initialize the engine (with the injected allocation outcomes), clear the
input state, claim console ownership, set the running flag, report
handled.  None of these steps is conditional on the initialization having
succeeded.  When already running: report unhandled, change nothing. -/
def onStartJavaScriptREPL (rOk cOk gOk : Bool) (s : PluginState) : Bool × PluginState :=
  if s.isJavaScriptREPLRunning = false then
    let s1 := initialize_js_environment rOk cOk gOk s
    let s2 := { s1 with input_buffer := "", empty_line_detected := false }
    (true, { s2 with claims := s2.claims + 1, isJavaScriptREPLRunning := true })
  else (false, s)

/-- A bridge invocation made by the engine during an evaluation, in terms
of the plugin state: it reads and writes the process-global global_vars
and the current context's global object.  The engine only calls the bridge
through a context, so the context-null branch is dead. -/
def plugin_bridge_call (arg : BridgeArg) (s : PluginState) : BridgeResult × PluginState :=
  match s.context with
  | none => (BridgeResult.value JSVal.undef, s)
  | some ctx =>
    let r := js_lookup_global arg
      { global_vars := s.global_vars, global_obj := ctx.global_obj, nextId := ctx.nextId }
    (r.1,
     { s with global_vars := r.2.global_vars,
              context := some ⟨r.2.global_obj, r.2.nextId⟩ })

/-- Process a sequence of console lines through onJavaScriptREPLText,
collecting the events in order. -/
def processLines (outcome : EvalOut) : List String → PluginState → PluginState × List REPLEvent
  | [], s => (s, [])
  | l :: rest, s =>
    let r := onJavaScriptREPLText outcome l s
    let rr := processLines outcome rest r.2.1
    (rr.1, r.2.2 ++ rr.2)

/-- Modelled from the spec: the joining of lines by single newline
characters, in input order, against which the accumulated buffer is
compared. -/
def specJoinLines : List String → String
  | [] => ""
  | [l] => l
  | l :: l2 :: rest => l ++ "\n" ++ specJoinLines (l2 :: rest)

/-- The state at process start: no globals, null engine handles, empty
buffer, no pending blank, REPL not running, no ownership traffic yet. -/
def initialState : PluginState :=
  { global_vars := [], runtime := false, context := none, input_buffer := "",
    empty_line_detected := false, isJavaScriptREPLRunning := false,
    claims := 0, releases := 0 }

/-- An active session with a live context, empty buffer and clear marker,
as produced by a successful start. -/
def activeEnvState : PluginState :=
  { global_vars := [], runtime := true, context := some ⟨[], 0⟩,
    input_buffer := "", empty_line_detected := false, isJavaScriptREPLRunning := true,
    claims := 1, releases := 0 }

/-- An active session with a live context, a buffered partial expression,
and a blank line already pending. -/
def pendingBlockState : PluginState :=
  { activeEnvState with input_buffer := "1+", empty_line_detected := true }

/-- Looking a key up right after storing it finds the stored value. -/
theorem findVar_setVar_self (m : List (String × JSVal)) (k : String) (v : JSVal) :
    findVar (setVar m k v) k = some v := by
  induction m with
  | nil => simp [setVar, findVar]
  | cons p rest ih =>
    obtain ⟨k', v'⟩ := p
    by_cases h : k' = k
    · subst h; simp [setVar, findVar]
    · simp [setVar, findVar, h, ih]

/-- Appending to a non-empty string keeps it non-empty. -/
theorem str_append_ne_empty (a b : String) (h : a ≠ "") : a ++ b ≠ "" := by
  intro hc
  apply h
  have hd := congrArg String.data hc
  rw [String.data_append] at hd
  have hnil : a.data = [] ∧ b.data = [] := List.append_eq_nil.mp hd
  cases a
  cases hnil.1
  rfl

/-- The newline join of a two-or-more element list peels off its head. -/
theorem specJoinLines_cons_cons (b y : String) (ys : List String) :
    specJoinLines ((b ++ "\n" ++ y) :: ys) = b ++ "\n" ++ specJoinLines (y :: ys) := by
  cases ys with
  | nil => simp [specJoinLines]
  | cons z zs => simp [specJoinLines, String.append_assoc]

/-- Folding the source's buffer-append over lines, starting from a
non-empty buffer, produces exactly the newline join. -/
theorem foldl_appendLine_spec :
    ∀ (xs : List String) (b : String), b ≠ "" →
    List.foldl appendLine b xs = specJoinLines (b :: xs) := by
  intro xs
  induction xs with
  | nil => intro b _; simp [specJoinLines]
  | cons y ys ih =>
    intro b hb
    rw [List.foldl_cons]
    have hby : appendLine b y = b ++ "\n" ++ y := by simp [appendLine, hb]
    have hb2 : appendLine b y ≠ "" := by
      rw [hby]
      exact str_append_ne_empty _ _ (str_append_ne_empty _ _ hb)
    rw [ih _ hb2, hby, specJoinLines_cons_cons]
    rfl

/-- The newline join of a list with a non-empty head is non-empty. -/
theorem specJoinLines_ne_empty (x : String) (xs : List String) (hx : x ≠ "") :
    specJoinLines (x :: xs) ≠ "" := by
  cases xs with
  | nil => simpa [specJoinLines] using hx
  | cons y ys =>
    simp only [specJoinLines]
    exact str_append_ne_empty _ _ (str_append_ne_empty _ _ hx)

/-- submittedTexts distributes over event concatenation. -/
theorem submittedTexts_append (a b : List REPLEvent) :
    submittedTexts (a ++ b) = submittedTexts a ++ submittedTexts b := by
  simp [submittedTexts]

/-- The post-eval events never contain a submission. -/
theorem submittedTexts_outcome_events (o : EvalOut) :
    submittedTexts (outcome_events o) = [] := by
  cases o with
  | thrown e => simp [outcome_events, submittedTexts]
  | ok v =>
    cases hv : JS_IsUndefined v with
    | true => simp [outcome_events, hv, submittedTexts]
    | false =>
      cases hc : js_to_cstring v with
      | none => simp [outcome_events, hv, hc, submittedTexts]
      | some str => simp [outcome_events, hv, hc, submittedTexts]

/-- A live context and a non-empty buffer make execute_js_code submit the
buffer and clear it. -/
theorem execute_submits (outcome : EvalOut) (s : PluginState)
    (hctx : s.context.isNone = false) (hbuf : ¬ s.input_buffer = "") :
    (execute_js_code outcome s).1 = { s with input_buffer := "" } ∧
    submittedTexts (execute_js_code outcome s).2 = [s.input_buffer] := by
  constructor
  · simp [execute_js_code, hctx, hbuf]
  · have h : (execute_js_code outcome s).2 =
        [REPLEvent.consolePrint "Executing JavaScript code:",
         REPLEvent.submission s.input_buffer] ++ outcome_events outcome := by
      simp [execute_js_code, hctx, hbuf]
    rw [h, submittedTexts_append, submittedTexts_outcome_events]
    rfl

/-- A non-blank, non-sentinel line is appended to the buffer and resets
the pending-blank marker. -/
theorem onText_nonblank (outcome : EvalOut) (l : String) (s : PluginState)
    (hrun : s.isJavaScriptREPLRunning = true) (hbl : isBlankLine l = false)
    (hend : l ≠ END_REPL_COMMAND) (hqqq : l ≠ QUIT_GAME_COMMAND) :
    onJavaScriptREPLText outcome l s =
      (true,
       { s with input_buffer := appendLine s.input_buffer l, empty_line_detected := false },
       []) := by
  simp [onJavaScriptREPLText, hrun, hbl, hend, hqqq]

/-- A blank line with no blank pending only sets the marker. -/
theorem onText_blank_set_marker (outcome : EvalOut) (l : String) (s : PluginState)
    (hrun : s.isJavaScriptREPLRunning = true) (hbl : isBlankLine l = true)
    (hmark : s.empty_line_detected = false) :
    onJavaScriptREPLText outcome l s = (true, { s with empty_line_detected := true }, []) := by
  have hq : l ≠ QUIT_GAME_COMMAND := by
    intro h; subst h; exact absurd hbl (by decide)
  have he : l ≠ END_REPL_COMMAND := by
    intro h; subst h; exact absurd hbl (by decide)
  simp [onJavaScriptREPLText, hrun, hq, he, hbl, hmark]

/-- A blank line with a blank pending runs execute_js_code and clears the
marker. -/
theorem onText_blank_execute (outcome : EvalOut) (l : String) (s : PluginState)
    (hrun : s.isJavaScriptREPLRunning = true) (hbl : isBlankLine l = true)
    (hmark : s.empty_line_detected = true) :
    onJavaScriptREPLText outcome l s =
      (true, { (execute_js_code outcome s).1 with empty_line_detected := false },
       (execute_js_code outcome s).2) := by
  have hq : l ≠ QUIT_GAME_COMMAND := by
    intro h; subst h; exact absurd hbl (by decide)
  have he : l ≠ END_REPL_COMMAND := by
    intro h; subst h; exact absurd hbl (by decide)
  simp [onJavaScriptREPLText, hrun, hq, he, hbl, hmark]

/-- Running a run of non-blank, non-sentinel lines only accumulates them
into the buffer (with newline separators), clears the marker (unless the
run is empty), emits nothing, and touches nothing else. -/
theorem processLines_nonblank (outcome : EvalOut) :
    ∀ (lines : List String) (s : PluginState),
    s.isJavaScriptREPLRunning = true →
    (∀ l ∈ lines, isBlankLine l = false ∧ l ≠ END_REPL_COMMAND ∧ l ≠ QUIT_GAME_COMMAND) →
    processLines outcome lines s =
      ({ s with input_buffer := List.foldl appendLine s.input_buffer lines,
                empty_line_detected := (lines.isEmpty && s.empty_line_detected) }, []) := by
  intro lines
  induction lines with
  | nil => intro s hrun _; simp [processLines]
  | cons l rest ih =>
    intro s hrun hall
    have h1 := hall l (by simp)
    have hall' : ∀ m ∈ rest, isBlankLine m = false ∧ m ≠ END_REPL_COMMAND ∧
        m ≠ QUIT_GAME_COMMAND := fun m hm => hall m (by simp [hm])
    rw [processLines, onText_nonblank outcome l s hrun h1.1 h1.2.1 h1.2.2]
    rw [ih _ (by simp [hrun]) hall']
    simp [List.foldl_cons]

/-- processLines splits over list concatenation. -/
theorem processLines_append (outcome : EvalOut) (A B : List String) (s : PluginState) :
    processLines outcome (A ++ B) s =
      ((processLines outcome B (processLines outcome A s).1).1,
       (processLines outcome A s).2 ++ (processLines outcome B (processLines outcome A s).1).2) := by
  induction A generalizing s with
  | nil => simp [processLines]
  | cons l rest ih => simp [processLines, ih, List.append_assoc]

/-- After a bridge lookup of a name, that name has an entry in
global_vars: either it already had one, or one was just created. -/
theorem lookup_materializes (name : String) (env : JSEnv) :
    (findVar (js_lookup_global (BridgeArg.str name) env).2.global_vars name).isSome = true := by
  simp only [js_lookup_global]
  cases hf : findVar env.global_vars name with
  | some v => simp [hf]
  | none =>
    by_cases hm : name = "MyString" <;> simp [hf, hm, findVar_setVar_self]

/-- Claim C4: when the first eval of a block throws an undefined-identifier
failure (a ReferenceError whose message includes the fixed text), the
wrapper extracts the offending name (first space-separated token of the
message), materializes a lazy global binding for it, and retries the eval
exactly once (two eval calls in total), surfacing the second outcome as is
- even when that outcome is itself a failure, including a different
undefined identifier; any non-matching failure is re-raised with a single
eval call and no lookup; a successful first eval returns its value with a
single eval call. -/
theorem wrapped_eval_retry_policy (e : JsError) (r2 : EvalOut) (env : JSEnv) :
    (is_not_defined_reference_error e = true →
      (run_wrapped_eval (EvalOut.thrown e) r2 env).1 = r2 ∧
      (run_wrapped_eval (EvalOut.thrown e) r2 env).2.2 = 2 ∧
      (findVar (run_wrapped_eval (EvalOut.thrown e) r2 env).2.1.global_vars
        (first_space_token e.message)).isSome = true) ∧
    (is_not_defined_reference_error e = false →
      run_wrapped_eval (EvalOut.thrown e) r2 env = (EvalOut.thrown e, env, 1)) ∧
    (∀ v : JSVal, run_wrapped_eval (EvalOut.ok v) r2 env = (EvalOut.ok v, env, 1)) := by
  refine ⟨fun h => ?_, fun h => ?_, fun v => rfl⟩
  · refine ⟨by simp [run_wrapped_eval, h], by simp [run_wrapped_eval, h], ?_⟩
    simp only [run_wrapped_eval, h, if_true]
    exact lookup_materializes _ _
  · simp [run_wrapped_eval, h]

/-- Witness for C4 at a concrete input: first eval fails with one
undefined identifier, the retry fails with a different one; the second
failure is surfaced, exactly two evals ran, and a binding for the first
name exists. -/
theorem wrapped_eval_retry_policy_witness :
    (run_wrapped_eval (EvalOut.thrown ⟨true, "Foo is not defined"⟩)
      (EvalOut.thrown ⟨true, "Bar is not defined"⟩) ⟨[], [], 0⟩).1
        = EvalOut.thrown ⟨true, "Bar is not defined"⟩ ∧
    (run_wrapped_eval (EvalOut.thrown ⟨true, "Foo is not defined"⟩)
      (EvalOut.thrown ⟨true, "Bar is not defined"⟩) ⟨[], [], 0⟩).2.2 = 2 ∧
    (findVar (run_wrapped_eval (EvalOut.thrown ⟨true, "Foo is not defined"⟩)
      (EvalOut.thrown ⟨true, "Bar is not defined"⟩) ⟨[], [], 0⟩).2.1.global_vars
      (first_space_token "Foo is not defined")).isSome = true :=
  (wrapped_eval_retry_policy ⟨true, "Foo is not defined"⟩
    (EvalOut.thrown ⟨true, "Bar is not defined"⟩) ⟨[], [], 0⟩).1 (by decide)

/-- Claim C5: for a name other than the reserved placeholder name and not
yet in the table, the first bridge lookup returns the engine's undefined
value and stores that binding; a subsequent lookup of the same name
returns the very same stored binding and leaves the engine state
unchanged (hence so does every later lookup). -/
theorem lazy_global_idempotent (name : String) (env : JSEnv)
    (hname : name ≠ "MyString") (hnew : findVar env.global_vars name = none) :
    (js_lookup_global (BridgeArg.str name) env).1 = BridgeResult.value JSVal.undef ∧
    findVar (js_lookup_global (BridgeArg.str name) env).2.global_vars name
      = some JSVal.undef ∧
    js_lookup_global (BridgeArg.str name) (js_lookup_global (BridgeArg.str name) env).2 =
      (BridgeResult.value JSVal.undef, (js_lookup_global (BridgeArg.str name) env).2) := by
  have h1 : js_lookup_global (BridgeArg.str name) env =
      (BridgeResult.value JSVal.undef,
       { global_vars := setVar env.global_vars name JSVal.undef,
         global_obj := setVar env.global_obj name JSVal.undef,
         nextId := env.nextId }) := by
    simp [js_lookup_global, hnew, hname, JS_DupValue]
  rw [h1]
  refine ⟨rfl, findVar_setVar_self _ _ _, ?_⟩
  simp [js_lookup_global, findVar_setVar_self, JS_DupValue]

/-- Witness for C5 at a concrete input: first lookup of Foo in a fresh
environment yields undefined, stores it, and a second lookup returns the
same binding with the state unchanged. -/
theorem lazy_global_idempotent_witness :
    (js_lookup_global (BridgeArg.str "Foo") ⟨[], [], 0⟩).1
      = BridgeResult.value JSVal.undef ∧
    findVar (js_lookup_global (BridgeArg.str "Foo") ⟨[], [], 0⟩).2.global_vars "Foo"
      = some JSVal.undef ∧
    js_lookup_global (BridgeArg.str "Foo") (js_lookup_global (BridgeArg.str "Foo") ⟨[], [], 0⟩).2 =
      (BridgeResult.value JSVal.undef, (js_lookup_global (BridgeArg.str "Foo") ⟨[], [], 0⟩).2) :=
  lazy_global_idempotent "Foo" ⟨[], [], 0⟩ (by decide) (by decide)

/-- Claim C8: the first bridge lookup of the reserved name MyString yields
the fixed constant string (a fresh engine string handle); afterwards the
very same handle is returned by the bridge again (with no state change)
and is the value of the MyString property of the global object. -/
theorem reserved_placeholder_binding (env : JSEnv)
    (hnew : findVar env.global_vars "MyString" = none) :
    (js_lookup_global (BridgeArg.str "MyString") env).1
      = BridgeResult.value (JSVal.strVal "I am a string!" env.nextId) ∧
    js_lookup_global (BridgeArg.str "MyString")
        (js_lookup_global (BridgeArg.str "MyString") env).2 =
      (BridgeResult.value (JSVal.strVal "I am a string!" env.nextId),
       (js_lookup_global (BridgeArg.str "MyString") env).2) ∧
    findVar (js_lookup_global (BridgeArg.str "MyString") env).2.global_obj "MyString"
      = some (JSVal.strVal "I am a string!" env.nextId) := by
  have h1 : js_lookup_global (BridgeArg.str "MyString") env =
      (BridgeResult.value (JSVal.strVal "I am a string!" env.nextId),
       { global_vars := setVar env.global_vars "MyString"
            (JSVal.strVal "I am a string!" env.nextId),
         global_obj := setVar env.global_obj "MyString"
            (JSVal.strVal "I am a string!" env.nextId),
         nextId := env.nextId + 1 }) := by
    simp [js_lookup_global, hnew, JS_DupValue]
  rw [h1]
  refine ⟨rfl, ?_, findVar_setVar_self _ _ _⟩
  simp [js_lookup_global, findVar_setVar_self, JS_DupValue]

/-- Witness for C8 at a fresh environment. -/
theorem reserved_placeholder_binding_witness :
    (js_lookup_global (BridgeArg.str "MyString") ⟨[], [], 0⟩).1
      = BridgeResult.value (JSVal.strVal "I am a string!" 0) ∧
    js_lookup_global (BridgeArg.str "MyString")
        (js_lookup_global (BridgeArg.str "MyString") ⟨[], [], 0⟩).2 =
      (BridgeResult.value (JSVal.strVal "I am a string!" 0),
       (js_lookup_global (BridgeArg.str "MyString") ⟨[], [], 0⟩).2) ∧
    findVar (js_lookup_global (BridgeArg.str "MyString") ⟨[], [], 0⟩).2.global_obj "MyString"
      = some (JSVal.strVal "I am a string!" 0) :=
  reserved_placeholder_binding ⟨[], [], 0⟩ (by decide)

/-- Claim C9: a bridge invocation with no argument, with a non-string
first argument, or whose string extraction fails, returns the engine's
undefined value, changes nothing, and never raises. -/
theorem malformed_bridge_input_yields_undefined (env : JSEnv) (v : JSVal) :
    js_lookup_global BridgeArg.noArg env = (BridgeResult.value JSVal.undef, env) ∧
    js_lookup_global (BridgeArg.nonString v) env = (BridgeResult.value JSVal.undef, env) ∧
    js_lookup_global BridgeArg.strExtractFail env = (BridgeResult.value JSVal.undef, env) :=
  ⟨rfl, rfl, rfl⟩

/-- Claim C1 as stated is false: starting the REPL while the runtime
allocation fails still sets the active flag and still claims console
ownership (the start handler never checks whether initialization
succeeded). -/
theorem start_failure_still_activates :
    (onStartJavaScriptREPL false true true initialState).2.isJavaScriptREPLRunning = true ∧
    (onStartJavaScriptREPL false true true initialState).2.claims = 1 := by
  decide

/-- Claim C1 (amended): if engine construction fails during activation
(runtime allocation fails, or context allocation fails after runtime
allocation), the partial acquisition is rolled back - both the runtime
and the context handle end up null, so no runtime without a context
survives - but the start handler nevertheless claims console ownership
and sets the active flag to true, reporting the command handled. -/
theorem start_rollback_on_engine_failure (rOk cOk gOk : Bool) (s : PluginState)
    (hidle : s.isJavaScriptREPLRunning = false) (hctx : s.context = none)
    (hfail : rOk = false ∨ cOk = false) :
    (onStartJavaScriptREPL rOk cOk gOk s).1 = true ∧
    (onStartJavaScriptREPL rOk cOk gOk s).2.runtime = false ∧
    (onStartJavaScriptREPL rOk cOk gOk s).2.context = none ∧
    (onStartJavaScriptREPL rOk cOk gOk s).2.isJavaScriptREPLRunning = true ∧
    (onStartJavaScriptREPL rOk cOk gOk s).2.claims = s.claims + 1 := by
  rcases hfail with h | h
  · subst h
    simp [onStartJavaScriptREPL, initialize_js_environment, hidle, hctx]
  · subst h
    cases rOk with
    | false => simp [onStartJavaScriptREPL, initialize_js_environment, hidle, hctx]
    | true => simp [onStartJavaScriptREPL, initialize_js_environment, hidle, hctx]

/-- Witness for amended C1: runtime allocation fails at the initial
state. -/
theorem start_rollback_on_engine_failure_witness :
    (onStartJavaScriptREPL false true true initialState).1 = true ∧
    (onStartJavaScriptREPL false true true initialState).2.runtime = false ∧
    (onStartJavaScriptREPL false true true initialState).2.context = none ∧
    (onStartJavaScriptREPL false true true initialState).2.isJavaScriptREPLRunning = true ∧
    (onStartJavaScriptREPL false true true initialState).2.claims = initialState.claims + 1 :=
  start_rollback_on_engine_failure false true true initialState rfl rfl (Or.inl rfl)

/-- Claim C2 as stated is false: after a failed start (engine context is
null) the double-blank terminator completes without clearing the buffer -
here the accumulated line x is still buffered afterwards. -/
theorem submission_clears_buffer_counterexample :
    (processLines (EvalOut.ok JSVal.undef) ["x", "", ""]
      (onStartJavaScriptREPL false true true initialState).2).1.input_buffer = "x" ∧
    (processLines (EvalOut.ok JSVal.undef) ["x", "", ""]
      (onStartJavaScriptREPL false true true initialState).2).1.empty_line_detected = false := by
  decide

/-- Claim C2 (amended): provided the engine context is non-null, after a
double-blank submission completes the input buffer is empty and the
pending-blank marker is false, regardless of whether evaluation succeeded
or threw (when the context is null, only the marker is reset and the
buffer is left as it was). -/
theorem submission_clears_buffer (outcome : EvalOut) (line : String) (s : PluginState)
    (hrun : s.isJavaScriptREPLRunning = true) (hctx : s.context.isNone = false)
    (hmark : s.empty_line_detected = true) (hbl : isBlankLine line = true) :
    (onJavaScriptREPLText outcome line s).2.1.input_buffer = "" ∧
    (onJavaScriptREPLText outcome line s).2.1.empty_line_detected = false := by
  rw [onText_blank_execute outcome line s hrun hbl hmark]
  refine ⟨?_, rfl⟩
  by_cases hb : s.input_buffer = ""
  · simp [execute_js_code, hb]
  · simp [(execute_submits outcome s hctx hb).1]

/-- Witness for amended C2: a thrown evaluation still leaves the buffer
empty and the marker clear. -/
theorem submission_clears_buffer_witness :
    (onJavaScriptREPLText (EvalOut.thrown ⟨false, "SyntaxError"⟩) ""
      pendingBlockState).2.1.input_buffer = "" ∧
    (onJavaScriptREPLText (EvalOut.thrown ⟨false, "SyntaxError"⟩) ""
      pendingBlockState).2.1.empty_line_detected = false :=
  submission_clears_buffer (EvalOut.thrown ⟨false, "SyntaxError"⟩) ""
    pendingBlockState rfl rfl rfl (by decide)

/-- Claim C3 as stated is false: the quit sentinel qqq is a non-blank
line, yet it is not appended to the buffer and does not reset the
pending-blank marker, so the sequence a, qqq, blank, blank submits just a
instead of the newline join of a and qqq. -/
theorem joined_submission_counterexample :
    submittedTexts (processLines (EvalOut.ok JSVal.undef) ["a", "qqq", "", ""]
      activeEnvState).2 = ["a"] ∧
    specJoinLines ["a", "qqq"] = "a\nqqq" ∧
    ("a" : String) ≠ "a\nqqq" := by
  decide

/-- Claim C3 (amended): for every sequence of console lines received
while active (with a live context, empty buffer and clear marker) that
consists of non-blank lines - none of them equal to the end or quit
sentinel - followed by exactly two consecutive blank (or whitespace-only)
lines, the text submitted for evaluation is exactly the newline join of
those lines in input order; a single blank (or whitespace-only) line
followed by a non-blank, non-sentinel line does not trigger any
submission, and such a line resets the pending-blank marker. -/
theorem repl_block_submission_joined (outcome : EvalOut) (s : PluginState)
    (x l b1 b2 : String) (xs : List String)
    (hrun : s.isJavaScriptREPLRunning = true) (hctx : s.context.isNone = false)
    (hbuf : s.input_buffer = "") (hmark : s.empty_line_detected = false)
    (hall : ∀ m ∈ x :: xs, isBlankLine m = false ∧ m ≠ END_REPL_COMMAND ∧
      m ≠ QUIT_GAME_COMMAND)
    (hb1 : isBlankLine b1 = true) (hb2 : isBlankLine b2 = true)
    (hl : isBlankLine l = false) (hlE : l ≠ END_REPL_COMMAND) (hlQ : l ≠ QUIT_GAME_COMMAND) :
    submittedTexts (processLines outcome ((x :: xs) ++ [b1, b2]) s).2
      = [specJoinLines (x :: xs)] ∧
    submittedTexts (processLines outcome [b1, l] s).2 = [] ∧
    (processLines outcome [b1, l] s).1.empty_line_detected = false := by
  have hx : x ≠ "" := by
    intro h
    exact absurd ((hall x (by simp)).1.symm.trans (by rw [h])) (by decide)
  have hJ : List.foldl appendLine "" (x :: xs) = specJoinLines (x :: xs) := by
    rw [List.foldl_cons]
    have : appendLine "" x = x := by simp [appendLine]
    rw [this, foldl_appendLine_spec xs x hx]
  have hJne : specJoinLines (x :: xs) ≠ "" := specJoinLines_ne_empty x xs hx
  have h2 : processLines outcome [b1, l] s =
      ({ s with input_buffer := appendLine s.input_buffer l,
                empty_line_detected := false }, []) := by
    rw [processLines, onText_blank_set_marker outcome b1 s hrun hb1 hmark]
    rw [processLines, onText_nonblank outcome l _ (by simp [hrun]) hl hlE hlQ]
    rw [processLines]
    rfl
  refine ⟨?_, by rw [h2]; rfl, by rw [h2]⟩
  rw [processLines_append outcome (x :: xs) [b1, b2] s,
      processLines_nonblank outcome (x :: xs) s hrun hall]
  rw [hbuf, hJ]
  rw [processLines, onText_blank_set_marker outcome b1 _ (by simp [hrun]) hb1
      (by simp)]
  rw [processLines, onText_blank_execute outcome b2 _ (by simp [hrun]) hb2
      (by simp)]
  rw [processLines]
  have hex := execute_submits outcome
    { s with input_buffer := specJoinLines (x :: xs),
             empty_line_detected := true }
    (by simp [hctx]) (by simpa using hJne)
  simp only [List.nil_append, List.append_nil]
  rw [hex.2]

/-- Witness for amended C3: the lines a and b followed by a space-only
line and a lone carriage return (both classified blank) submit exactly
their newline join; a single space-only line then c submits nothing and
clears the marker. -/
theorem repl_block_submission_joined_witness :
    submittedTexts (processLines (EvalOut.ok JSVal.undef) (["a", "b"] ++ [" ", "\r"])
      activeEnvState).2 = [specJoinLines ["a", "b"]] ∧
    submittedTexts (processLines (EvalOut.ok JSVal.undef) [" ", "c"] activeEnvState).2 = [] ∧
    (processLines (EvalOut.ok JSVal.undef) [" ", "c"] activeEnvState).1.empty_line_detected
      = false :=
  repl_block_submission_joined (EvalOut.ok JSVal.undef) activeEnvState "a" "c" " " "\r" ["b"]
    rfl rfl rfl rfl (by decide) (by decide) (by decide) (by decide) (by decide) (by decide)

/-- Claim C6: the code keeps global_vars for ever - cleanup_js_environment
never clears it.  In this session trace the engine context is destroyed by
the end sentinel, yet after a second start the table still holds the Foo
entry created during the first session; the stored handle belongs to the
destroyed context. -/
theorem global_vars_persist_across_sessions :
    (onJavaScriptREPLText (EvalOut.ok JSVal.undef) END_REPL_COMMAND
      (plugin_bridge_call (BridgeArg.str "Foo")
        (onStartJavaScriptREPL true true true initialState).2).2).2.1.context = none ∧
    findVar ((onStartJavaScriptREPL true true true
      (onJavaScriptREPLText (EvalOut.ok JSVal.undef) END_REPL_COMMAND
        (plugin_bridge_call (BridgeArg.str "Foo")
          (onStartJavaScriptREPL true true true initialState).2).2).2.1).2.global_vars) "Foo"
      = some JSVal.undef := by
  decide

/-- Claim C7: the end sentinel received while active is reported handled,
and afterwards the active flag is false, the input buffer is empty, the
context is destroyed, console ownership has been released exactly once
more, and nothing was submitted for evaluation on the way out - whatever
the buffer held. -/
theorem end_sentinel_teardown (outcome : EvalOut) (s : PluginState)
    (hrun : s.isJavaScriptREPLRunning = true) :
    (onJavaScriptREPLText outcome END_REPL_COMMAND s).1 = true ∧
    (onJavaScriptREPLText outcome END_REPL_COMMAND s).2.1.isJavaScriptREPLRunning = false ∧
    (onJavaScriptREPLText outcome END_REPL_COMMAND s).2.1.input_buffer = "" ∧
    (onJavaScriptREPLText outcome END_REPL_COMMAND s).2.1.context = none ∧
    (onJavaScriptREPLText outcome END_REPL_COMMAND s).2.1.releases = s.releases + 1 ∧
    submittedTexts (onJavaScriptREPLText outcome END_REPL_COMMAND s).2.2 = [] := by
  have hq : ¬ (END_REPL_COMMAND = QUIT_GAME_COMMAND) := by decide
  simp [onJavaScriptREPLText, hrun, hq, cleanup_js_environment, submittedTexts]

/-- Witness for C7 at a concrete input: the end sentinel with a non-empty
buffer tears everything down without evaluating it. -/
theorem end_sentinel_teardown_witness :
    (onJavaScriptREPLText (EvalOut.ok JSVal.undef) END_REPL_COMMAND
      pendingBlockState).1 = true ∧
    (onJavaScriptREPLText (EvalOut.ok JSVal.undef) END_REPL_COMMAND
      pendingBlockState).2.1.isJavaScriptREPLRunning = false ∧
    (onJavaScriptREPLText (EvalOut.ok JSVal.undef) END_REPL_COMMAND
      pendingBlockState).2.1.input_buffer = "" ∧
    (onJavaScriptREPLText (EvalOut.ok JSVal.undef) END_REPL_COMMAND
      pendingBlockState).2.1.context = none ∧
    (onJavaScriptREPLText (EvalOut.ok JSVal.undef) END_REPL_COMMAND
      pendingBlockState).2.1.releases = pendingBlockState.releases + 1 ∧
    submittedTexts (onJavaScriptREPLText (EvalOut.ok JSVal.undef) END_REPL_COMMAND
      pendingBlockState).2.2 = [] :=
  end_sentinel_teardown (EvalOut.ok JSVal.undef) pendingBlockState rfl

/-- Claim C10: a double-blank submission while active with a null engine
context evaluates nothing, prints nothing, leaves the whole state - the
input buffer in particular - unchanged except for the pending-blank
marker, which is reset, and reports the line handled. -/
theorem no_context_submission_frame (outcome : EvalOut) (line : String) (s : PluginState)
    (hrun : s.isJavaScriptREPLRunning = true) (hctx : s.context = none)
    (hmark : s.empty_line_detected = true) (hbl : isBlankLine line = true) :
    onJavaScriptREPLText outcome line s =
      (true, { s with empty_line_detected := false }, []) := by
  rw [onText_blank_execute outcome line s hrun hbl hmark]
  have hex : execute_js_code outcome s = (s, []) := by
    simp [execute_js_code, hctx]
  rw [hex]

/-- Witness for C10: the state reached by a failed start followed by one
buffered line and one blank line; the second blank changes only the
marker. -/
theorem no_context_submission_frame_witness :
    onJavaScriptREPLText (EvalOut.ok JSVal.undef) ""
      (processLines (EvalOut.ok JSVal.undef) ["x", ""]
        (onStartJavaScriptREPL false true true initialState).2).1 =
      (true,
       { (processLines (EvalOut.ok JSVal.undef) ["x", ""]
           (onStartJavaScriptREPL false true true initialState).2).1 with
         empty_line_detected := false },
       []) :=
  no_context_submission_frame (EvalOut.ok JSVal.undef) ""
    (processLines (EvalOut.ok JSVal.undef) ["x", ""]
      (onStartJavaScriptREPL false true true initialState).2).1
    (by decide) (by decide) (by decide) (by decide)
